import Mathlib

/-!
Verification development for the x402 CLI payment client
(protocol codec, payment-option selector, EVM and Solana signers,
and the payment-flow orchestrator of the `test` command).

The Go source is embedded shallowly: pure functions become Lean
functions; library calls whose internals are outside the repository
(base64, JSON, keccak, ECDSA, base58, Solana RPC) are abstracted as
explicit function parameters collected in environment records, while
every control-flow decision and data construction of the repository
code is reproduced faithfully.
-/

/-- Byte strings are modelled as lists of naturals (each < 256 where it matters). -/
abbrev Bytes := List Nat

namespace X402

/-! ## Data model (internal/x402 types) -/

/-- Values of the open `extra` metadata map (Go `map[string]interface\x7b\x7d`):
either a JSON string or some non-string value. -/
inductive ExtraVal
  | str (s : String)
  | other
  deriving DecidableEq, Repr

/-- `ResourceInfo` describes the protected resource (v2 only). -/
structure ResourceInfo where
  url : String := ""
  description : String := ""
  mimeType : String := ""
  deriving DecidableEq, Repr

/-- `PaymentRequirement` represents a single payment option from `accepts[]`. -/
structure PaymentRequirement where
  scheme : String := ""
  network : String := ""
  amount : String := ""            -- v2 field
  maxAmountRequired : String := "" -- v1 field
  asset : String := ""
  payTo : String := ""
  maxTimeoutSeconds : Int := 0
  extra : List (String × ExtraVal) := []
  -- v1 includes resource info directly in each payment option
  resourcePath : String := ""
  description : String := ""
  mimeType : String := ""
  deriving DecidableEq, Repr

/-- `GetAmount` returns the payment amount, handling v1 vs v2 field naming:
v2 uses `amount`, v1 uses `maxAmountRequired`. -/
def PaymentRequirement.GetAmount (p : PaymentRequirement) : String :=
  if p.amount ≠ "" then p.amount else p.maxAmountRequired

/-- `GetExtraString` retrieves a string value from the `extra` map. -/
def PaymentRequirement.GetExtraString (p : PaymentRequirement) (key : String) : String :=
  match List.lookup key p.extra with
  | some (ExtraVal.str s) => s
  | some ExtraVal.other => ""
  | none => ""

/-- `PaymentRequired` is the decoded payment requirements from a 402 response. -/
structure PaymentRequired where
  x402Version : Int := 0
  error : String := ""
  resource : ResourceInfo := {}
  accepts : List PaymentRequirement := []
  deriving DecidableEq, Repr

/-- `Authorization` contains EIP-3009 TransferWithAuthorization parameters. -/
structure Authorization where
  fromAddr : String := ""
  toAddr : String := ""
  value : String := ""
  validAfter : String := ""
  validBefore : String := ""
  nonce : String := ""
  deriving DecidableEq, Repr

/-- `ExactEvmPayload` contains the signature and authorization for EVM payments. -/
structure ExactEvmPayload where
  signature : String := ""
  authorization : Authorization := {}
  deriving DecidableEq, Repr

/-- `AcceptedOption` mirrors `PaymentRequirement` for the `accepted` field. -/
structure AcceptedOption where
  scheme : String := ""
  network : String := ""
  amount : String := ""
  maxAmountRequired : String := ""
  asset : String := ""
  payTo : String := ""
  maxTimeoutSeconds : Int := 0
  extra : List (String × ExtraVal) := []
  deriving DecidableEq, Repr

/-- `PaymentPayloadV2` is the v2 protocol payment payload structure. -/
structure PaymentPayloadV2 where
  x402Version : Int
  resource : ResourceInfo
  accepted : AcceptedOption
  payload : ExactEvmPayload
  deriving DecidableEq, Repr

/-- `PaymentPayloadV1` is the v1 protocol payment payload structure. -/
structure PaymentPayloadV1 where
  x402Version : Int
  scheme : String
  network : String
  payload : ExactEvmPayload
  deriving DecidableEq, Repr

/-- `PaymentResponse` is the server settlement record after payment. -/
structure PaymentResponse where
  success : Bool := false
  transaction : String := ""
  network : String := ""
  error : String := ""
  deriving DecidableEq, Repr

/-- Protocol version constant `ProtocolV1`. -/
def ProtocolV1 : Int := 1

/-- Protocol version constant `ProtocolV2`. -/
def ProtocolV2 : Int := 2

/-- v2 header carrying payment requirements. -/
def HeaderPaymentRequired : String := "Payment-Required"

/-- v2 header carrying the outgoing payment payload. -/
def HeaderPaymentSignature : String := "Payment-Signature"

/-- v2 header carrying the settlement record. -/
def HeaderPaymentResponse : String := "Payment-Response"

/-- v1 header carrying the outgoing payment payload. -/
def HeaderXPayment : String := "X-Payment"

/-- v1 header carrying the settlement record. -/
def HeaderXPaymentResponse : String := "X-Payment-Response"

/-! ## Network identification helpers -/

/-- Character-level prefix test. -/
def listIsPrefixOf : List Char → List Char → Bool
  | [], _ => true
  | _ :: _, [] => false
  | p :: ps, c :: cs => p == c && listIsPrefixOf ps cs

/-- Model of Go `strings.HasPrefix` (`String.startsWith`), defined at the
character level so that it evaluates inside the kernel. -/
def strStartsWith (s pre : String) : Bool :=
  listIsPrefixOf pre.toList s.toList

/-- `networkNameToChainID` maps common network names to their chain IDs. -/
def networkNameToChainID : List (String × Int) :=
  [("ethereum", 1), ("mainnet", 1), ("base", 8453), ("polygon", 137),
   ("arbitrum", 42161), ("optimism", 10), ("avalanche", 43114), ("bsc", 56),
   ("sepolia", 11155111), ("goerli", 5), ("base-sepolia", 84532),
   ("base_sepolia", 84532), ("basesepolia", 84532), ("mumbai", 80001)]

/-- CAIP-2 identifier for Solana mainnet-beta. -/
def SolanaMainnet : String := "solana:5eykt4UsFv8P8NJdTREpY1vzqKqZKvdp"

/-- CAIP-2 identifier for Solana devnet. -/
def SolanaDevnet : String := "solana:EtWTRABZaYq6iMfeYKouRu166VU2xqa1"

/-- CAIP-2 identifier for Solana testnet. -/
def SolanaTestnet : String := "solana:4uhcVJyU9pJkvQyS88uRDiswHXSCkY3z"

/-- `solanaNetworkAliases` maps common Solana network names to CAIP-2 identifiers. -/
def solanaNetworkAliases : List (String × String) :=
  [("solana", SolanaMainnet), ("solana-mainnet", SolanaMainnet),
   ("solana-mainnet-beta", SolanaMainnet), ("mainnet-beta", SolanaMainnet),
   ("solana-devnet", SolanaDevnet), ("devnet", SolanaDevnet),
   ("solana-testnet", SolanaTestnet), ("testnet", SolanaTestnet)]

/-- `IsEVMNetwork` checks whether the network is an EVM-compatible chain
(CAIP-2 format `eip155:*` with content after the colon, or a known name). -/
def IsEVMNetwork (network : String) : Bool :=
  (strStartsWith network "eip155:" && network.length > 7) ||
    (List.lookup network networkNameToChainID).isSome

/-- `IsSolanaNetwork` checks whether the network is a Solana chain
(CAIP-2 format `solana:*` with content after the colon, or a known alias). -/
def IsSolanaNetwork (network : String) : Bool :=
  (strStartsWith network "solana:" && network.length > 7) ||
    (List.lookup network solanaNetworkAliases).isSome

/-- `FindEVMOption` returns the first EVM-compatible payment option, if any. -/
def FindEVMOption (pr : PaymentRequired) : Option PaymentRequirement :=
  pr.accepts.find? (fun o => IsEVMNetwork o.network)

/-- `FindSolanaOption` returns the first Solana payment option, if any. -/
def FindSolanaOption (pr : PaymentRequired) : Option PaymentRequirement :=
  pr.accepts.find? (fun o => IsSolanaNetwork o.network)

/-- Scan an optional sign followed by at least one leading decimal digit,
ignoring trailing input, as `fmt.Sscanf` with verb `%d` does. -/
def scanLeadingInt (cs : List Char) : Option Int :=
  let (neg, rest) :=
    match cs with
    | '-' :: r => (true, r)
    | '+' :: r => (false, r)
    | _ => (false, cs)
  let digits := rest.takeWhile Char.isDigit
  if digits.isEmpty then none
  else
    let n : Nat := digits.foldl (fun a c => a * 10 + (c.toNat - 48)) 0
    some (if neg then -(n : Int) else (n : Int))

/-- `ExtractChainID` extracts the numeric chain ID from a network string,
supporting CAIP-2 format (`eip155:8453`) and common names (`base`). -/
def ExtractChainID (network : String) : Except String Int :=
  if strStartsWith network "eip155:" then
    match scanLeadingInt (network.toList.drop 7) with
    | some chainID => .ok chainID
    | none => .error ("invalid chain ID in network " ++ network)
  else
    match List.lookup network networkNameToChainID with
    | some chainID => .ok chainID
    | none => .error ("unknown network: " ++ network)

/-! ## Protocol codec -/

/-- `ParseResult` contains the parsed payment requirements and metadata. -/
structure ParseResult where
  paymentRequired : PaymentRequired
  protocolVersion : Int
  rawHeader : String
  rawBody : Bytes
  deriving DecidableEq, Repr

/-- Abstract wire-format primitives used by the codec: standard base64
decoding/encoding and JSON (un)marshalling for the payload types. These
are Go standard-library calls, outside the repository, so each is a
parameter; `none` models a decode error. -/
structure CodecEnv where
  b64decode : String → Option Bytes
  b64encode : Bytes → String
  jsonDecodePaymentRequired : Bytes → Option PaymentRequired
  jsonDecodePaymentResponse : Bytes → Option PaymentResponse
  jsonEncodePayloadV2 : PaymentPayloadV2 → Bytes
  jsonEncodePayloadV1 : PaymentPayloadV1 → Bytes

/-- `ParsePaymentRequired` extracts payment requirements from a 402 response.
Auto-detects v1 vs v2 based on the presence of the Payment-Required header
(the header value is `""` when absent, as with Go `Header.Get`). -/
def ParsePaymentRequired (env : CodecEnv) (paymentRequiredHeader : String)
    (body : Bytes) : Except String ParseResult :=
  let decoded : Except String ParseResult :=
    if paymentRequiredHeader ≠ "" then
      -- v2: decode base64 header
      match env.b64decode paymentRequiredHeader with
      | none => .error ("invalid base64 in " ++ HeaderPaymentRequired ++ " header")
      | some decodedBytes =>
        match env.jsonDecodePaymentRequired decodedBytes with
        | none => .error ("invalid JSON in " ++ HeaderPaymentRequired ++ " header")
        | some pr =>
          .ok { paymentRequired := pr, protocolVersion := ProtocolV2,
                rawHeader := paymentRequiredHeader, rawBody := body }
    else
      -- v1: parse body as JSON
      if body.isEmpty then
        .error "empty response body (expected JSON payment requirements)"
      else
        match env.jsonDecodePaymentRequired body with
        | none => .error "invalid JSON in response body"
        | some pr =>
          .ok { paymentRequired := pr, protocolVersion := ProtocolV1,
                rawHeader := "", rawBody := body }
  match decoded with
  | .error e => .error e
  | .ok result =>
    -- validate we have payment options
    if result.paymentRequired.accepts.isEmpty then
      .error "no payment options in accepts[] array"
    else
      .ok result

/-- `ParsePaymentResponse` extracts the settlement record from a response,
checking the header selected by protocol version; `getHeader` models
`resp.Header.Get` (returns `""` when the header is absent). -/
def ParsePaymentResponse (env : CodecEnv) (getHeader : String → String)
    (protocolVersion : Int) : Except String (Option PaymentResponse) :=
  let headerName :=
    if protocolVersion = ProtocolV2 then HeaderPaymentResponse
    else HeaderXPaymentResponse
  let headerValue := getHeader headerName
  if headerValue = "" then
    -- no payment response header - may still be success
    .ok none
  else
    match env.b64decode headerValue with
    | none => .error ("invalid base64 in " ++ headerName ++ " header")
    | some decoded =>
      match env.jsonDecodePaymentResponse decoded with
      | none => .error ("invalid JSON in " ++ headerName ++ " header")
      | some pr => .ok (some pr)

/-- `BuildPayloadV2` constructs the v2 payment payload for the
Payment-Signature header. -/
def BuildPayloadV2 (resource : ResourceInfo) (option : PaymentRequirement)
    (signature : String) (auth : Authorization) : PaymentPayloadV2 :=
  { x402Version := ProtocolV2
    resource := resource
    accepted :=
      { scheme := option.scheme
        network := option.network
        amount := option.GetAmount
        asset := option.asset
        payTo := option.payTo
        maxTimeoutSeconds := option.maxTimeoutSeconds
        extra := option.extra }
    payload := { signature := signature, authorization := auth } }

/-- `BuildPayloadV1` constructs the v1 payment payload for the X-Payment header. -/
def BuildPayloadV1 (option : PaymentRequirement) (signature : String)
    (auth : Authorization) : PaymentPayloadV1 :=
  { x402Version := ProtocolV1
    scheme := option.scheme
    network := option.network
    payload := { signature := signature, authorization := auth } }

/-- `BuildAndEncodePayload` builds and encodes a payment payload based on the
protocol version, returning the header name to use and the encoded value.
(`json.Marshal` cannot fail on these struct types, so encoding is total.) -/
def BuildAndEncodePayload (env : CodecEnv) (protocolVersion : Int)
    (resource : ResourceInfo) (option : PaymentRequirement)
    (signature : String) (auth : Authorization) : String × String :=
  if protocolVersion = ProtocolV2 then
    (HeaderPaymentSignature,
      env.b64encode (env.jsonEncodePayloadV2 (BuildPayloadV2 resource option signature auth)))
  else
    (HeaderXPayment,
      env.b64encode (env.jsonEncodePayloadV1 (BuildPayloadV1 option signature auth)))

end X402

namespace Tokens

open X402

/-- Go `big.Int.SetString(s, 10)` modelled as a total parse of a decimal
integer with optional sign (underscores are rejected in base 10); `none`
models the `ok = false` result. -/
def goBigIntSetString (s : String) : Option Int :=
  match s.toList with
  | [] => none
  | c :: rest =>
    let (neg, digits) :=
      if c = '-' then (true, rest)
      else if c = '+' then (false, rest)
      else (false, c :: rest)
    if digits.isEmpty then none
    else if digits.all Char.isDigit then
      let n : Nat := digits.foldl (fun a ch => a * 10 + (ch.toNat - 48)) 0
      some (if neg then -(n : Int) else (n : Int))
    else none

/-- Go `strconv.ParseUint(s, 10, 64)`: digits only (no sign), non-empty,
and the value must fit in 64 bits. -/
def goParseUint64 (s : String) : Option Nat :=
  let cs := s.toList
  if cs.isEmpty then none
  else if cs.all Char.isDigit then
    let n : Nat := cs.foldl (fun a ch => a * 10 + (ch.toNat - 48)) 0
    if n < 2 ^ 64 then some n else none
  else none

/-- Model of Go `strings.TrimSpace`, at the character level so that it
evaluates inside the kernel. -/
def goTrimSpace (s : String) : String :=
  String.mk (((s.toList.dropWhile Char.isWhitespace).reverse.dropWhile
    Char.isWhitespace).reverse)

/-- Model of Go `strings.Split` on a one-character separator, at the
character level so that it evaluates inside the kernel. -/
def splitOnChar (sep : Char) : List Char → List (List Char)
  | [] => [[]]
  | c :: rest =>
    if c = sep then [] :: splitOnChar sep rest
    else
      match splitOnChar sep rest with
      | [] => [[c]]
      | h :: t => (c :: h) :: t

/-- `FormatAmount` converts a raw token amount to human-readable form,
for example amount `10000` with 6 decimals and symbol `USDC` gives
`0.01 USDC`. `big.Int.Div`/`Mod` are Euclidean, hence `ediv`/`emod`. -/
def FormatAmount (rawAmount : String) (decimals : Nat) (symbol : String) : String :=
  if rawAmount = "" then "0 " ++ symbol
  else
    match goBigIntSetString rawAmount with
    | none => rawAmount ++ " " ++ symbol ++ " (invalid)"
    | some amount =>
      let divisor : Int := (10 : Int) ^ decimals
      let intPart := amount.ediv divisor
      let remainder := amount.emod divisor
      -- decimal part with leading zeros (Sprintf with zero padding)
      let decStr0 := toString remainder
      let decStr1 := String.mk (List.replicate (decimals - decStr0.length) '0') ++ decStr0
      -- trim trailing zeros but keep at least 2 decimal places
      let decStr2 := String.mk (decStr1.toList.reverse.dropWhile (· = '0')).reverse
      let decStr3 :=
        if decStr2.length < 2 then decStr2 ++ String.mk (List.replicate (2 - decStr2.length) '0')
        else decStr2
      toString intPart ++ "." ++ decStr3 ++ " " ++ symbol

/-- `ParseHumanAmount` converts a human-readable amount to raw units,
for example `0.01` with 6 decimals gives `10000`. -/
def ParseHumanAmount (humanAmount : String) (decimals : Nat) : Except String String :=
  let trimmed := goTrimSpace humanAmount
  if trimmed = "" then .error "empty amount"
  else
    let parts := (splitOnChar '.' trimmed.toList).map String.mk
    if parts.length > 2 then .error ("invalid amount format: " ++ trimmed)
    else
      let intPart := parts.headD ""
      let decPart := (parts.drop 1).headD ""
      -- pad or truncate the decimal part to match decimals
      let decPadded :=
        if decPart.length < decimals then
          decPart ++ String.mk (List.replicate (decimals - decPart.length) '0')
        else String.mk (decPart.toList.take decimals)
      let rawStr := intPart ++ decPadded
      match goBigIntSetString rawStr with
      | none => .error ("invalid amount: " ++ trimmed)
      | some raw => .ok (toString raw)

/-- `CompareAmounts` compares two raw amounts: -1, 0 or 1. The Go code
ignores the `SetString` result; a fresh `big.Int` stays zero when the
scan fails before consuming any digit, modelled here with `getD 0`. -/
def CompareAmounts (a b : String) : Int :=
  let amountA := (goBigIntSetString a).getD 0
  let amountB := (goBigIntSetString b).getD 0
  if amountA < amountB then -1 else if amountA = amountB then 0 else 1

/-- `TokenInfo` is the registry entry for a known token
(only the fields the payment flow reads). -/
structure TokenInfo where
  symbol : String
  decimals : Nat
  deriving DecidableEq, Repr

end Tokens

namespace Commands

open X402

/-- `selectPaymentOption` chooses the payment option based on the available
options and whether the user provided a Solana keypair. Returns the chosen
requirement and the chain tag (`true` = Solana). -/
def selectPaymentOption (solanaOpt evmOpt : Option PaymentRequirement)
    (hasSolanaKeypair : Bool) : Except String (PaymentRequirement × Bool) :=
  if hasSolanaKeypair then
    match solanaOpt with
    | some o => .ok (o, true)
    | none =>
      match evmOpt with
      | some _ =>
        .error "endpoint does not accept Solana payments, but --solana-keypair was provided"
      | none => .error "no supported payment options found"
  else
    -- default to EVM
    match evmOpt with
    | some o => .ok (o, false)
    | none =>
      match solanaOpt with
      | some _ => .error "endpoint only accepts Solana payments (use --solana-keypair)"
      | none => .error "no supported payment options found"

end Commands

namespace Wallet

open X402 Tokens

/-! ## EVM authorization signer (EIP-712 / EIP-3009) -/

/-- `SignParams` contains parameters for signing a TransferWithAuthorization
(the `feePayer` field is used only by the Solana signer). -/
structure SignParams where
  chainID : Int := 0
  tokenAddress : String := ""
  tokenName : String := ""
  tokenVersion : String := ""
  fromAddr : String := ""
  toAddr : String := ""
  value : String := ""
  validAfter : Int := 0
  validBefore : Int := 0
  timeoutSeconds : Int := 0
  feePayer : String := ""
  deriving DecidableEq, Repr

/-- `SignResult` contains the signature and authorization details. -/
structure SignResult where
  signature : String
  authorization : Authorization
  nonce : String
  deriving DecidableEq, Repr

/-- EIP-712 domain of the typed data. -/
structure TypedDataDomain where
  name : String
  version : String
  chainId : Int
  verifyingContract : String
  deriving DecidableEq, Repr

/-- The EIP-712 typed data assembled for TransferWithAuthorization
(the static type table is determined by `primaryType`). -/
structure TypedData where
  primaryType : String
  domain : TypedDataDomain
  message : List (String × String)
  deriving DecidableEq, Repr

/-- Go `common.Bytes2Hex` at the character level: lowercase hex encoding,
two characters per byte (`Nat.digitChar` yields `0`-`9`, `a`-`f` below 16). -/
def bytes2hexList : Bytes → List Char
  | [] => []
  | x :: t => Nat.digitChar (x / 16) :: Nat.digitChar (x % 16) :: bytes2hexList t

/-- Go `common.Bytes2Hex`: lowercase hex encoding, two characters per byte. -/
def bytes2hex (b : Bytes) : String :=
  String.mk (bytes2hexList b)

/-- Go `common.BytesToHash`: a 32-byte value, left-truncating longer input
to its last 32 bytes and left-padding shorter input with zeros. -/
def bytesToHash (b : Bytes) : Bytes :=
  let tail := if b.length > 32 then b.drop (b.length - 32) else b
  List.replicate (32 - tail.length) 0 ++ tail

/-- `buildTypedData` constructs the EIP-712 typed data for
TransferWithAuthorization (`nonce` is the 32-byte hash value). -/
def buildTypedData (params : SignParams) (nonce : Bytes) (validBefore : Int)
    (value : Int) : TypedData :=
  { primaryType := "TransferWithAuthorization"
    domain :=
      { name := params.tokenName
        version := params.tokenVersion
        chainId := params.chainID
        verifyingContract := params.tokenAddress }
    message :=
      [("from", params.fromAddr), ("to", params.toAddr),
       ("value", toString value), ("validAfter", toString params.validAfter),
       ("validBefore", toString validBefore), ("nonce", "0x" ++ bytes2hex nonce)] }

/-- Abstract cryptographic primitives used by the EVM signer: randomness,
wall-clock time, the two EIP-712 struct hashes, keccak256 and ECDSA signing
with the private key (all external library calls). -/
structure EVMEnv where
  randRead : Except String Bytes
  now : Int
  hashStructDomain : TypedData → Except String Bytes
  hashStructMessage : TypedData → Except String Bytes
  keccak256 : Bytes → Bytes
  cryptoSign : Bytes → Except String Bytes

/-- The recovery-byte adjustment: add 27 to `sig[64]` when below 27. -/
def adjustV (sig : Bytes) : Bytes :=
  if sig.getD 64 0 < 27 then sig.set 64 (sig.getD 64 0 + 27) else sig

/-- Model of Go `%q` on the strings at hand (no escapes needed). -/
def goQuote (s : String) : String :=
  "\"" ++ s ++ "\""

/-- Shared tail of the two EVM signing routines: the validBefore
computation, EIP-712 hashing, signing and result assembly, starting from
the already-parsed big-integer value. -/
def signWithValue (env : EVMEnv) (params : SignParams) (nonce : Bytes)
    (value : Int) : Except String SignResult := do
  let validBefore :=
    if params.validBefore = 0 then
      let timeout := if params.timeoutSeconds = 0 then 300 else params.timeoutSeconds
      env.now + timeout
    else params.validBefore
  let typedData := buildTypedData params nonce validBefore value
  let domainSeparator ←
    (env.hashStructDomain typedData).mapError ("failed to hash domain: " ++ ·)
  let messageHash ←
    (env.hashStructMessage typedData).mapError ("failed to hash message: " ++ ·)
  -- keccak256 of 0x19 0x01 || domainSeparator || messageHash
  let rawData := [0x19, 0x01] ++ domainSeparator ++ messageHash
  let hash := env.keccak256 rawData
  let signature ← (env.cryptoSign hash).mapError ("failed to sign: " ++ ·)
  let signature := adjustV signature
  .ok { signature := "0x" ++ bytes2hex signature
        authorization :=
          { fromAddr := params.fromAddr
            toAddr := params.toAddr
            value := params.value
            validAfter := toString params.validAfter
            validBefore := toString validBefore
            nonce := "0x" ++ bytes2hex nonce }
        nonce := "0x" ++ bytes2hex nonce }

/-- `SignTransferAuthorization` creates an EIP-712 signature for an EIP-3009
TransferWithAuthorization. This standalone routine passes the amount string
to `big.Int.SetString` and ignores the ok result (a fresh receiver stays
zero when the scan fails before consuming a digit), so a malformed amount
does not abort the signing. -/
def SignTransferAuthorization (env : EVMEnv) (params : SignParams) :
    Except String SignResult := do
  let nonceBytes ← env.randRead.mapError ("failed to generate nonce: " ++ ·)
  let nonce := bytesToHash nonceBytes
  let value := (goBigIntSetString params.value).getD 0
  signWithValue env params nonce value

/-- `EVMSigner.Sign` creates the same EIP-712 signature but rejects an
amount string that does not parse as a decimal integer. -/
def EVMSigner.Sign (env : EVMEnv) (params : SignParams) :
    Except String SignResult := do
  let nonceBytes ← env.randRead.mapError ("failed to generate nonce: " ++ ·)
  let nonce := bytesToHash nonceBytes
  match goBigIntSetString params.value with
  | none => .error ("invalid payment value: " ++ goQuote params.value)
  | some value => signWithValue env params nonce value

/-- `PrepareSignParams` builds `SignParams` from a payment requirement and
the signer address, applying the USDC/2 domain defaults. -/
def PrepareSignParams (option : PaymentRequirement) (fromAddress : String)
    (chainID : Int) : SignParams :=
  let tokenName :=
    if option.GetExtraString "name" = "" then "USDC" else option.GetExtraString "name"
  let tokenVersion :=
    if option.GetExtraString "version" = "" then "2" else option.GetExtraString "version"
  { chainID := chainID
    tokenAddress := option.asset
    tokenName := tokenName
    tokenVersion := tokenVersion
    fromAddr := fromAddress
    toAddr := option.payTo
    value := option.GetAmount
    validAfter := 0
    validBefore := 0
    timeoutSeconds := option.maxTimeoutSeconds }

/-! ## Solana transaction signer -/

/-- Decoded Solana public keys are opaque in this model. -/
abbrev PubKey := Nat

/-- The instructions the Solana signer can emit. -/
inductive Instruction
  | createAssociatedTokenAccount (fundingAccount owner mint : PubKey)
  | setComputeUnitLimit (limit : Nat)
  | setComputeUnitPrice (price : Nat)
  | transferChecked (amount decimals : Nat) (source mint destination owner : PubKey)
  deriving DecidableEq, Repr

/-- Compute-unit limit used for the priority-fee instruction. -/
def defaultComputeUnitLimit : Nat := 200000

/-- Compute-unit price (microLamports) used for the priority-fee instruction. -/
def defaultComputeUnitPrice : Nat := 1

/-- Result of the latest-blockhash RPC call. -/
structure LatestBlockhash where
  blockhash : Bytes
  lastValidBlockHeight : Nat
  deriving DecidableEq, Repr

/-- The constructed transaction: the instruction list, the recent
blockhash and the designated fee payer. -/
structure SolanaTx where
  instructions : List Instruction
  recentBlockhash : Bytes
  feePayer : PubKey
  deriving DecidableEq, Repr

/-- Abstract ledger primitives used by the Solana signer. `getAccountInfo`
returns an RPC error, or an optional result whose value slot is again
optional (Go: result pointer nil, or `result.Value` nil). -/
structure SolanaEnv where
  ownPublicKey : PubKey
  publicKeyFromBase58 : String → Option PubKey
  findAssociatedTokenAddress : PubKey → PubKey → Except String PubKey
  getAccountInfo : PubKey → Except String (Option (Option Bytes))
  decodeMint : Bytes → Option Nat
  getLatestBlockhash : Except String LatestBlockhash
  signTx : SolanaTx → Except String Unit
  txToBase64 : SolanaTx → Except String String
  b64encode : Bytes → String
  hashString : Bytes → String

/-- `getTokenDecimals` fetches the decimal precision for an SPL token mint. -/
def getTokenDecimals (env : SolanaEnv) (mintPubkey : PubKey) : Except String Nat :=
  match env.getAccountInfo mintPubkey with
  | .error e => .error ("failed to fetch mint account: " ++ e)
  | .ok none => .error "mint account not found"
  | .ok (some none) => .error "mint account not found"
  | .ok (some (some data)) =>
    match env.decodeMint data with
    | none => .error "failed to decode mint data"
    | some decimals => .ok decimals

/-- `accountExists` checks whether an account exists on-chain. An RPC error
is treated as the account not existing, and the error slot of the result is
nil on every path. -/
def accountExists (env : SolanaEnv) (pubkey : PubKey) : Bool × Option String :=
  match env.getAccountInfo pubkey with
  | .error _ => (false, none)
  | .ok accountInfo => ((accountInfo.bind id).isSome, none)

/-- The transaction-construction portion of `SolanaSigner.Sign`: address
resolution, amount parsing, decimals lookup, ATA derivation, the
existence check of the destination ATA, instruction assembly and the
blockhash fetch, producing the transaction handed to partial signing. -/
def SolanaSigner.buildTransaction (env : SolanaEnv) (params : SignParams) :
    Except String (SolanaTx × LatestBlockhash) := do
  let payerPubkey := env.ownPublicKey
  let recipientPubkey ←
    match env.publicKeyFromBase58 params.toAddr with
    | none => .error "invalid recipient address"
    | some k => .ok k
  let mintPubkey ←
    match env.publicKeyFromBase58 params.tokenAddress with
    | none => .error "invalid token mint address"
    | some k => .ok k
  let feePayerPubkey ←
    match env.publicKeyFromBase58 params.feePayer with
    | none => .error "invalid fee payer address"
    | some k => .ok k
  let amount ←
    match goParseUint64 params.value with
    | none => .error "invalid amount"
    | some a => .ok a
  let decimals ←
    (getTokenDecimals env mintPubkey).mapError ("failed to get token decimals: " ++ ·)
  let sourceATA ←
    (env.findAssociatedTokenAddress payerPubkey mintPubkey).mapError
      ("failed to find source ATA: " ++ ·)
  let destATA ←
    (env.findAssociatedTokenAddress recipientPubkey mintPubkey).mapError
      ("failed to find destination ATA: " ++ ·)
  -- Go binds the pair (destATAExists, err) and aborts on a non-nil err
  let destATAExists := (accountExists env destATA).1
  match (accountExists env destATA).2 with
  | some e => .error ("failed to check destination ATA: " ++ e)
  | none => do
    -- if the destination ATA does not exist, prepend a creation
    -- instruction paid by the fee payer
    let instructions : List Instruction :=
      if !destATAExists then
        [Instruction.createAssociatedTokenAccount feePayerPubkey recipientPubkey mintPubkey]
      else []
    -- compute-budget instructions
    let instructions := instructions ++
      [Instruction.setComputeUnitLimit defaultComputeUnitLimit,
       Instruction.setComputeUnitPrice defaultComputeUnitPrice]
    -- decimals-checked transfer
    let instructions := instructions ++
      [Instruction.transferChecked amount decimals sourceATA mintPubkey destATA payerPubkey]
    let recent ←
      env.getLatestBlockhash.mapError ("failed to get recent blockhash: " ++ ·)
    .ok ({ instructions := instructions
           recentBlockhash := recent.blockhash
           feePayer := feePayerPubkey }, recent)

/-- `SolanaSigner.Sign` builds the transaction, partially signs it (only
the token owner signs; the fee payer slot stays empty) and serializes it;
the serialized transaction is the signature artifact. -/
def SolanaSigner.Sign (env : SolanaEnv) (params : SignParams) :
    Except String SignResult := do
  let (tx, recent) ← SolanaSigner.buildTransaction env params
  let _ ← (env.signTx tx).mapError ("failed to sign transaction: " ++ ·)
  let txBase64 ← (env.txToBase64 tx).mapError ("failed to serialize transaction: " ++ ·)
  .ok { signature := txBase64
        authorization :=
          { fromAddr := params.fromAddr
            toAddr := params.toAddr
            value := params.value
            validAfter := "0"
            validBefore := toString recent.lastValidBlockHeight
            nonce := env.b64encode recent.blockhash }
        nonce := env.hashString recent.blockhash }

/-- `PrepareSolanaSignParams` builds `SignParams` from a Solana payment
requirement (the fee payer comes from the extension map). -/
def PrepareSolanaSignParams (option : PaymentRequirement) (fromAddress : String) :
    SignParams :=
  { tokenAddress := option.asset
    fromAddr := fromAddress
    toAddr := option.payTo
    value := option.GetAmount
    timeoutSeconds := option.maxTimeoutSeconds
    feePayer := option.GetExtraString "feePayer" }

end Wallet

namespace Commands

open X402 Tokens

/-- Inputs of one run of the `test` command up to the signing step: the
initial response (status, Payment-Required header, body), the caller
configuration (flags), and the abstracted collaborators (wire codec,
token registry, wallet loading, terminal, and the chain signer). -/
structure FlowEnv where
  codec : CodecEnv
  reqError : Option String
  status : Nat
  paymentRequiredHeader : String
  body : Bytes
  hasSolanaKeypair : Bool
  maxAmount : String
  dryRun : Bool
  skipPaymentConfirmation : Bool
  isTTY : Bool
  promptConfirm : Bool
  getTokenInfo : String → String → Option TokenInfo
  loadWallet : Bool → Except String String
  signer : Wallet.SignParams → Except String Wallet.SignResult

/-- Where a run of the modelled flow fragment stops without an error. -/
inductive FlowOutcome
  | ok200
  | dryRunStop
  | cancelled
  | signed (r : Wallet.SignResult)
  deriving DecidableEq, Repr

/-- `runTestFlow` models `runTest` from the initial response through the
signing step. The second component counts signer invocations (the later
payload/retry/verify steps are outside the modelled fragment and cannot
invoke the signer). -/
def runTestFlow (env : FlowEnv) : Except String FlowOutcome × Nat :=
  match env.reqError with
  | some e => (.error ("connection failed: " ++ e), 0)
  | none =>
    if env.status ≠ 402 then
      if env.status = 200 then (.ok .ok200, 0)
      else (.error ("expected 402 Payment Required, got " ++ toString env.status), 0)
    else
      match ParsePaymentRequired env.codec env.paymentRequiredHeader env.body with
      | .error e => (.error ("failed to parse payment requirements: " ++ e), 0)
      | .ok parseResult =>
        -- find payment option based on provided credentials
        let solanaOption := FindSolanaOption parseResult.paymentRequired
        let evmOption := FindEVMOption parseResult.paymentRequired
        match selectPaymentOption solanaOption evmOption env.hasSolanaKeypair with
        | .error e => (.error e, 0)
        | .ok (paymentOption, isSolana) =>
          -- chain ID for EVM (not needed for Solana)
          match (if isSolana then Except.ok 0
                 else ExtractChainID paymentOption.network : Except String Int) with
          | .error e => (.error ("invalid network: " ++ e), 0)
          | .ok chainID =>
            -- format payment info
            let tokenInfoFirst := env.getTokenInfo paymentOption.network paymentOption.asset
            let (amountHuman, tokenKnown) :=
              match tokenInfoFirst with
              | some ti => (FormatAmount paymentOption.GetAmount ti.decimals ti.symbol, true)
              | none => (paymentOption.GetAmount ++ " raw units (unknown token)", false)
            -- check max-amount
            let capCheck : Except String Unit :=
              if env.maxAmount ≠ "" ∧ tokenKnown = true then
                match env.getTokenInfo paymentOption.network paymentOption.asset with
                | none => .ok ()
                | some ti =>
                  match ParseHumanAmount env.maxAmount ti.decimals with
                  | .error e => .error ("invalid --max-amount: " ++ e)
                  | .ok maxRaw =>
                    if CompareAmounts paymentOption.GetAmount maxRaw > 0 then
                      .error ("payment amount " ++ amountHuman ++ " exceeds maximum " ++
                        env.maxAmount ++ " " ++ ti.symbol)
                    else .ok ()
              else .ok ()
            match capCheck with
            | .error e => (.error e, 0)
            | .ok _ =>
              if env.dryRun then (.ok .dryRunStop, 0)
              else
                -- load wallet and create signer
                match (if isSolana then
                         (env.loadWallet true).mapError ("failed to load Solana keypair: " ++ ·)
                       else
                         (env.loadWallet false).mapError ("failed to load wallet: " ++ ·)) with
                | .error e => (.error e, 0)
                | .ok fromAddress =>
                  -- confirmation prompt
                  if !env.skipPaymentConfirmation && env.isTTY && !env.promptConfirm then
                    (.ok .cancelled, 0)
                  else
                    -- sign authorization
                    let signParams :=
                      if isSolana then Wallet.PrepareSolanaSignParams paymentOption fromAddress
                      else Wallet.PrepareSignParams paymentOption fromAddress chainID
                    match env.signer signParams with
                    | .error e => (.error ("failed to sign authorization: " ++ e), 1)
                    | .ok r => (.ok (.signed r), 1)

end Commands

/-! ## Theorems -/

section Theorems

open X402 Tokens Commands Wallet

/-- C4: for every `PaymentRequirement`, `GetAmount` returns the
`maxAmountRequired` field when only that field is non-empty, returns the
`amount` field when only that field is non-empty, returns `amount` when
both are non-empty, and never errors: when both fields are empty it
returns the empty string. -/
theorem getAmount_field_resolution (p : PaymentRequirement) :
    (p.amount = "" → p.maxAmountRequired ≠ "" → p.GetAmount = p.maxAmountRequired) ∧
    (p.amount ≠ "" → p.maxAmountRequired = "" → p.GetAmount = p.amount) ∧
    (p.amount ≠ "" → p.maxAmountRequired ≠ "" → p.GetAmount = p.amount) ∧
    (p.amount = "" → p.maxAmountRequired = "" → p.GetAmount = "") := by
  unfold PaymentRequirement.GetAmount
  refine ⟨?_, ?_, ?_, ?_⟩ <;> intro h1 h2 <;> simp [h1, h2]

/-- Witness for C4 at concrete requirements. -/
theorem getAmount_field_resolution_witness :
    ({ maxAmountRequired := "500000" } : PaymentRequirement).GetAmount = "500000" ∧
    ({ amount := "1000000", maxAmountRequired := "500000" } :
        PaymentRequirement).GetAmount = "1000000" :=
  ⟨(getAmount_field_resolution _).1 rfl (by decide),
   (getAmount_field_resolution _).2.2.1 (by decide) (by decide)⟩

/-- C2: the option selector returns a requirement only when its chain
matches a held credential. With a Solana keypair supplied it returns the
Solana option if one exists, fails naming the mismatch if only an EVM
option exists, and fails generically if neither exists; without it, it
returns the EVM option if one exists, fails advising the other key type
if only a Solana option exists, and fails generically if neither exists. -/
theorem selectPaymentOption_policy (s e : Option PaymentRequirement) (k : Bool) :
    (k = true → ∀ o, s = some o → selectPaymentOption s e k = .ok (o, true)) ∧
    (k = true → s = none → ∀ o, e = some o → selectPaymentOption s e k =
      .error "endpoint does not accept Solana payments, but --solana-keypair was provided") ∧
    (k = true → s = none → e = none → selectPaymentOption s e k =
      .error "no supported payment options found") ∧
    (k = false → ∀ o, e = some o → selectPaymentOption s e k = .ok (o, false)) ∧
    (k = false → e = none → ∀ o, s = some o → selectPaymentOption s e k =
      .error "endpoint only accepts Solana payments (use --solana-keypair)") ∧
    (k = false → e = none → s = none → selectPaymentOption s e k =
      .error "no supported payment options found") ∧
    (∀ o b, selectPaymentOption s e k = .ok (o, b) →
      b = k ∧ (k = true → s = some o) ∧ (k = false → e = some o)) := by
  cases k <;> cases s <;> cases e <;> simp [selectPaymentOption]

/-- Witness for C2: both credential configurations on a one-option list. -/
theorem selectPaymentOption_policy_witness :
    selectPaymentOption (some { network := "solana:abc" }) none true =
      .ok ({ network := "solana:abc" }, true) ∧
    selectPaymentOption none (some { network := "eip155:8453" }) true =
      .error "endpoint does not accept Solana payments, but --solana-keypair was provided" ∧
    selectPaymentOption none (some { network := "eip155:8453" }) false =
      .ok ({ network := "eip155:8453" }, false) ∧
    selectPaymentOption (some { network := "solana:abc" }) none false =
      .error "endpoint only accepts Solana payments (use --solana-keypair)" :=
  ⟨(selectPaymentOption_policy _ none true).1 rfl _ rfl,
   (selectPaymentOption_policy none _ true).2.1 rfl rfl _ rfl,
   (selectPaymentOption_policy none _ false).2.2.2.1 rfl _ rfl,
   (selectPaymentOption_policy _ none false).2.2.2.2.1 rfl rfl _ rfl⟩

/-- C9: `ParsePaymentResponse` selects the settlement header by version
(current name for v2, legacy name otherwise); an absent header yields an
empty result with no error, and an error occurs exactly when the header
is present but its base64 or JSON decoding fails. -/
theorem parsePaymentResponse_header_policy (env : CodecEnv)
    (getHeader : String → String) (v : Int) :
    (getHeader (if v = ProtocolV2 then HeaderPaymentResponse else HeaderXPaymentResponse) = "" →
      ParsePaymentResponse env getHeader v = .ok none) ∧
    (∀ d pr,
      getHeader (if v = ProtocolV2 then HeaderPaymentResponse else HeaderXPaymentResponse) ≠ "" →
      env.b64decode
        (getHeader (if v = ProtocolV2 then HeaderPaymentResponse else HeaderXPaymentResponse)) =
          some d →
      env.jsonDecodePaymentResponse d = some pr →
      ParsePaymentResponse env getHeader v = .ok (some pr)) ∧
    ((∃ msg, ParsePaymentResponse env getHeader v = .error msg) ↔
      getHeader (if v = ProtocolV2 then HeaderPaymentResponse else HeaderXPaymentResponse) ≠ "" ∧
        (env.b64decode (getHeader
            (if v = ProtocolV2 then HeaderPaymentResponse else HeaderXPaymentResponse)) = none ∨
         ∃ d, env.b64decode (getHeader
            (if v = ProtocolV2 then HeaderPaymentResponse else HeaderXPaymentResponse)) = some d ∧
           env.jsonDecodePaymentResponse d = none)) := by
  unfold ParsePaymentResponse
  by_cases hv :
      getHeader (if v = ProtocolV2 then HeaderPaymentResponse else HeaderXPaymentResponse) = ""
  · simp [hv]
  · cases hb : env.b64decode
        (getHeader (if v = ProtocolV2 then HeaderPaymentResponse else HeaderXPaymentResponse)) with
    | none => simp [hv, hb]
    | some d =>
      cases hj : env.jsonDecodePaymentResponse d with
      | none =>
        simp [hv, hb, hj]
        intro d1 pr hd
        subst hd
        simp [hj]
      | some pr =>
        simp [hv, hb, hj]
        intro d1 pr1 hd hjj
        subst hd
        rw [hj] at hjj
        exact Option.some.inj hjj

/-- A concrete one-option v2 requirement used by witnesses. -/
def demoOption : PaymentRequirement :=
  { scheme := "exact", network := "eip155:84532", amount := "1000",
    asset := "0xabc", payTo := "0xdef" }

/-- A concrete decoded 402 payload used by witnesses. -/
def demoPaymentRequired : PaymentRequired :=
  { x402Version := 2, accepts := [demoOption] }

/-- A concrete codec environment used by witnesses: `"GOOD"` base64-decodes
to the bytes of `demoPaymentRequired`, `"RESP"` to those of a settlement
record, and everything else fails to decode. -/
def demoCodec : CodecEnv :=
  { b64decode := fun s => if s = "GOOD" then some [1] else if s = "RESP" then some [2] else none
    b64encode := fun _ => "ENC"
    jsonDecodePaymentRequired := fun b => if b = [1] then some demoPaymentRequired else none
    jsonDecodePaymentResponse := fun b =>
      if b = [2] then some { success := true, transaction := "0xtx" } else none
    jsonEncodePayloadV2 := fun _ => [3]
    jsonEncodePayloadV1 := fun _ => [4] }

/-- Witness for C9: absent header gives an empty result, present header
decodes the settlement record. -/
theorem parsePaymentResponse_header_policy_witness :
    ParsePaymentResponse demoCodec (fun _ => "") ProtocolV2 = .ok none ∧
    ParsePaymentResponse demoCodec
        (fun n => if n = HeaderPaymentResponse then "RESP" else "") ProtocolV2 =
      .ok (some { success := true, transaction := "0xtx" }) :=
  ⟨(parsePaymentResponse_header_policy demoCodec (fun _ => "") ProtocolV2).1 rfl,
   (parsePaymentResponse_header_policy demoCodec
      (fun n => if n = HeaderPaymentResponse then "RESP" else "") ProtocolV2).2.1
     [2] { success := true, transaction := "0xtx" } (by decide) (by decide) (by decide)⟩

/-- C3: `ParsePaymentRequired` detects version 2 exactly when the
Payment-Required header is present (base64-then-JSON decoding the header,
the decoded payload and version not depending on the body), otherwise
decodes the body as v1 JSON; it errors precisely when the header is
present but not valid base64, when either decode path yields invalid
JSON, when the v1 body is empty, or when the decoded accepts list is
empty. -/
theorem parsePaymentRequired_detection (env : CodecEnv) (header : String) (body : Bytes) :
    (∀ res, ParsePaymentRequired env header body = .ok res →
      (res.protocolVersion = ProtocolV2 ↔ header ≠ "") ∧
      (res.protocolVersion = ProtocolV1 ↔ header = "")) ∧
    (header ≠ "" → ∀ body2 : Bytes,
      (ParsePaymentRequired env header body).map (fun r => (r.paymentRequired, r.protocolVersion)) =
      (ParsePaymentRequired env header body2).map
        (fun r => (r.paymentRequired, r.protocolVersion))) ∧
    (header ≠ "" → env.b64decode header = none →
      ParsePaymentRequired env header body =
        .error ("invalid base64 in " ++ HeaderPaymentRequired ++ " header")) ∧
    (header ≠ "" → ∀ d, env.b64decode header = some d → env.jsonDecodePaymentRequired d = none →
      ParsePaymentRequired env header body =
        .error ("invalid JSON in " ++ HeaderPaymentRequired ++ " header")) ∧
    ((∃ msg, ParsePaymentRequired env header body = .error msg) ↔
      (header ≠ "" ∧ env.b64decode header = none) ∨
      (header ≠ "" ∧ ∃ d, env.b64decode header = some d ∧
        env.jsonDecodePaymentRequired d = none) ∨
      (header ≠ "" ∧ ∃ d pr, env.b64decode header = some d ∧
        env.jsonDecodePaymentRequired d = some pr ∧ pr.accepts = []) ∨
      (header = "" ∧ body = []) ∨
      (header = "" ∧ body ≠ [] ∧ env.jsonDecodePaymentRequired body = none) ∨
      (header = "" ∧ body ≠ [] ∧ ∃ pr, env.jsonDecodePaymentRequired body = some pr ∧
        pr.accepts = [])) := by
  by_cases hh : header = ""
  · subst hh
    by_cases hbody : body = []
    · subst hbody
      simp [ParsePaymentRequired]
    · cases hj : env.jsonDecodePaymentRequired body with
      | none => simp [ParsePaymentRequired, hbody, hj, List.isEmpty_iff]
      | some pr =>
        cases hacc : pr.accepts with
        | nil => simp [ParsePaymentRequired, hbody, hj, hacc, List.isEmpty_iff]
        | cons a t =>
          simp [ParsePaymentRequired, hbody, hj, hacc, List.isEmpty_iff, ProtocolV1, ProtocolV2]
  · cases hb : env.b64decode header with
    | none => simp [ParsePaymentRequired, hh, hb]
    | some d =>
      cases hj : env.jsonDecodePaymentRequired d with
      | none => simp [ParsePaymentRequired, hh, hb, hj]
      | some pr =>
        cases hacc : pr.accepts with
        | nil => simp [ParsePaymentRequired, hh, hb, hj, hacc, List.isEmpty_iff]
        | cons a t =>
          simp [ParsePaymentRequired, hh, hb, hj, hacc, List.isEmpty_iff, Except.map,
            ProtocolV1, ProtocolV2]

/-- Witness for C3, at the concrete witness codec: a present header
parses as version 2, a missing header with empty body is the
empty-body error. -/
theorem parsePaymentRequired_detection_witness :
    (({ paymentRequired := demoPaymentRequired, protocolVersion := 2,
        rawHeader := "GOOD", rawBody := [] } : ParseResult).protocolVersion = ProtocolV2 ↔
      ("GOOD" : String) ≠ "") ∧
    ParsePaymentRequired demoCodec "BAD" [] =
      .error ("invalid base64 in " ++ HeaderPaymentRequired ++ " header") ∧
    (∃ msg, ParsePaymentRequired demoCodec "" [] = .error msg) :=
  ⟨((parsePaymentRequired_detection demoCodec "GOOD" []).1 _ rfl).1,
   (parsePaymentRequired_detection demoCodec "BAD" []).2.2.1 (by decide) (by decide),
   ((parsePaymentRequired_detection demoCodec "" []).2.2.2.2).mpr
     (Or.inr (Or.inr (Or.inr (Or.inl ⟨rfl, rfl⟩))))⟩

/-- C8: decoding a valid v2 402 payload and re-encoding a selected
requirement with `BuildAndEncodePayload` encodes a v2 payload whose
accepted option preserves the scheme, network, amount, asset and payTo
of that requirement. -/
theorem parse_build_preserves_fields (env : CodecEnv) (header : String) (body : Bytes)
    (res : ParseResult) (opt : PaymentRequirement) (sig : String) (auth : Authorization)
    (hh : header ≠ "") (hp : ParsePaymentRequired env header body = .ok res)
    (hmem : opt ∈ res.paymentRequired.accepts) :
    BuildAndEncodePayload env ProtocolV2 res.paymentRequired.resource opt sig auth =
      (HeaderPaymentSignature, env.b64encode (env.jsonEncodePayloadV2
        (BuildPayloadV2 res.paymentRequired.resource opt sig auth))) ∧
    (BuildPayloadV2 res.paymentRequired.resource opt sig auth).accepted.scheme = opt.scheme ∧
    (BuildPayloadV2 res.paymentRequired.resource opt sig auth).accepted.network = opt.network ∧
    (BuildPayloadV2 res.paymentRequired.resource opt sig auth).accepted.asset = opt.asset ∧
    (BuildPayloadV2 res.paymentRequired.resource opt sig auth).accepted.payTo = opt.payTo ∧
    (BuildPayloadV2 res.paymentRequired.resource opt sig auth).accepted.amount = opt.GetAmount ∧
    (opt.amount ≠ "" →
      (BuildPayloadV2 res.paymentRequired.resource opt sig auth).accepted.amount = opt.amount) := by
  refine ⟨by simp [BuildAndEncodePayload], rfl, rfl, rfl, rfl, rfl, ?_⟩
  intro ha
  simp [BuildPayloadV2, PaymentRequirement.GetAmount, ha]

/-- Witness for C8 at the concrete witness codec. -/
theorem parse_build_preserves_fields_witness :
    (BuildPayloadV2 demoPaymentRequired.resource demoOption "0xsig" {}).accepted.amount =
      "1000" :=
  (parse_build_preserves_fields demoCodec "GOOD" []
      { paymentRequired := demoPaymentRequired, protocolVersion := 2,
        rawHeader := "GOOD", rawBody := [] }
      demoOption "0xsig" {} (by decide) rfl (by simp [demoPaymentRequired]))
    |>.2.2.2.2.2.2 (by decide)

/-- A benign crypto environment in which every external primitive
succeeds, used to exercise the EVM signing routines on concrete input. -/
def c5Env : EVMEnv :=
  { randRead := .ok (List.replicate 32 0)
    now := 1700000000
    hashStructDomain := fun _ => .ok [1]
    hashStructMessage := fun _ => .ok [2]
    keccak256 := fun b => b
    cryptoSign := fun _ => .ok (List.replicate 64 5 ++ [1]) }

/-- Signing parameters whose amount string is not a decimal integer. -/
def c5Params : SignParams := { value := "abc" }

/-- Counterexample for C5: `"abc"` is not a valid decimal integer, yet
`SignTransferAuthorization` succeeds and returns a signature, because it
ignores the result of the big-integer parse. -/
theorem signTransferAuthorization_accepts_invalid_amount :
    goBigIntSetString "abc" = none ∧
    (SignTransferAuthorization c5Env c5Params).isOk = true :=
  ⟨rfl, rfl⟩

/-- C5 (amended): `EVMSigner.Sign` — the signer method the payment flow
invokes — fails with the invalid-amount error and returns no signature
whenever the amount string is not a valid decimal integer (nonce
generation, which precedes the check, must succeed); the standalone
`SignTransferAuthorization` performs no such validation. -/
theorem evmSign_rejects_invalid_amount (env : EVMEnv) (params : SignParams) (nb : Bytes)
    (h1 : env.randRead = .ok nb) (h2 : goBigIntSetString params.value = none) :
    EVMSigner.Sign env params =
      .error ("invalid payment value: " ++ goQuote params.value) := by
  unfold EVMSigner.Sign
  simp [h1, h2, Except.mapError, bind, Except.bind]

/-- Witness for C5 (amended) at the concrete input `"abc"`. -/
theorem evmSign_rejects_invalid_amount_witness :
    EVMSigner.Sign c5Env c5Params = .error ("invalid payment value: " ++ goQuote "abc") :=
  evmSign_rejects_invalid_amount c5Env c5Params (List.replicate 32 0) rfl rfl

/-- `accountExists` returns a nil error on every path. -/
theorem accountExists_snd_none (env : SolanaEnv) (k : PubKey) :
    (accountExists env k).2 = none := by
  unfold accountExists
  cases env.getAccountInfo k <;> simp

/-- Shared characterization of a successful Solana transaction build:
the instruction list is the optional account-creation instruction
followed by compute-unit limit, compute-unit price and the
decimals-checked transfer. -/
theorem buildTransaction_ok_spec
    (env : SolanaEnv) (params : SignParams)
    (recipient mint feePayer sourceATA destATA : PubKey) (amount decimals : Nat)
    (recent : LatestBlockhash)
    (h1 : env.publicKeyFromBase58 params.toAddr = some recipient)
    (h2 : env.publicKeyFromBase58 params.tokenAddress = some mint)
    (h3 : env.publicKeyFromBase58 params.feePayer = some feePayer)
    (h4 : goParseUint64 params.value = some amount)
    (h5 : getTokenDecimals env mint = .ok decimals)
    (h6 : env.findAssociatedTokenAddress env.ownPublicKey mint = .ok sourceATA)
    (h7 : env.findAssociatedTokenAddress recipient mint = .ok destATA)
    (h8 : env.getLatestBlockhash = .ok recent) :
    SolanaSigner.buildTransaction env params =
      .ok ({ instructions :=
               (if (accountExists env destATA).1 then []
                else [Instruction.createAssociatedTokenAccount feePayer recipient mint]) ++
               [Instruction.setComputeUnitLimit defaultComputeUnitLimit,
                Instruction.setComputeUnitPrice defaultComputeUnitPrice,
                Instruction.transferChecked amount decimals sourceATA mint destATA
                  env.ownPublicKey],
             recentBlockhash := recent.blockhash,
             feePayer := feePayer }, recent) := by
  unfold SolanaSigner.buildTransaction
  simp [h1, h2, h3, h4, h5, h6, h7, h8, Except.mapError, bind, Except.bind,
    accountExists_snd_none]
  cases (accountExists env destATA).1 <;> simp

/-- C6: for every successfully built Solana transaction, the instruction
list is exactly an optional associated-token-account creation instruction
(present iff the payee's associated account does not exist, funded by the
fee payer), then the compute-unit-limit instruction, then the
compute-unit-price instruction, then the decimals-checked transfer
instruction last. -/
theorem solanaSign_instruction_order
    (env : SolanaEnv) (params : SignParams)
    (recipient mint feePayer sourceATA destATA : PubKey) (amount decimals : Nat)
    (recent : LatestBlockhash)
    (h1 : env.publicKeyFromBase58 params.toAddr = some recipient)
    (h2 : env.publicKeyFromBase58 params.tokenAddress = some mint)
    (h3 : env.publicKeyFromBase58 params.feePayer = some feePayer)
    (h4 : goParseUint64 params.value = some amount)
    (h5 : getTokenDecimals env mint = .ok decimals)
    (h6 : env.findAssociatedTokenAddress env.ownPublicKey mint = .ok sourceATA)
    (h7 : env.findAssociatedTokenAddress recipient mint = .ok destATA)
    (h8 : env.getLatestBlockhash = .ok recent) :
    SolanaSigner.buildTransaction env params =
      .ok ({ instructions :=
               (if (accountExists env destATA).1 then []
                else [Instruction.createAssociatedTokenAccount feePayer recipient mint]) ++
               [Instruction.setComputeUnitLimit defaultComputeUnitLimit,
                Instruction.setComputeUnitPrice defaultComputeUnitPrice,
                Instruction.transferChecked amount decimals sourceATA mint destATA
                  env.ownPublicKey],
             recentBlockhash := recent.blockhash,
             feePayer := feePayer }, recent) :=
  buildTransaction_ok_spec env params recipient mint feePayer sourceATA destATA
    amount decimals recent h1 h2 h3 h4 h5 h6 h7 h8

/-- A concrete ledger environment used to exercise the Solana signer:
pubkeys decode to small numbers, the ATA of owner `o` and mint `m` is
`o * 100 + m`, only the mint account (30) resolves over RPC, and the
destination ATA lookup (2030) fails with an RPC error. -/
def demoSolanaEnv : SolanaEnv :=
  { ownPublicKey := 10
    publicKeyFromBase58 := fun s =>
      if s = "payee" then some 20 else if s = "mint" then some 30
      else if s = "feepayer" then some 40 else none
    findAssociatedTokenAddress := fun o m => .ok (o * 100 + m)
    getAccountInfo := fun k => if k = 30 then .ok (some (some [6])) else .error "rpc down"
    decodeMint := fun b => if b = [6] then some 6 else none
    getLatestBlockhash := .ok { blockhash := [9], lastValidBlockHeight := 12345 }
    signTx := fun _ => .ok ()
    txToBase64 := fun _ => .ok "BASE64TX"
    b64encode := fun _ => "B64"
    hashString := fun _ => "HASH" }

/-- Concrete Solana signing parameters for the witnesses. -/
def demoSolanaParams : SignParams :=
  { tokenAddress := "mint", fromAddr := "me", toAddr := "payee",
    value := "1000000", feePayer := "feepayer" }

/-- Witness for C6 at the concrete environment (the destination account
does not exist, so the creation instruction is prepended). -/
theorem solanaSign_instruction_order_witness :
    SolanaSigner.buildTransaction demoSolanaEnv demoSolanaParams =
      .ok ({ instructions :=
               [Instruction.createAssociatedTokenAccount 40 20 30,
                Instruction.setComputeUnitLimit 200000,
                Instruction.setComputeUnitPrice 1,
                Instruction.transferChecked 1000000 6 1030 30 2030 10],
             recentBlockhash := [9], feePayer := 40 },
        { blockhash := [9], lastValidBlockHeight := 12345 }) := by
  have h := solanaSign_instruction_order demoSolanaEnv demoSolanaParams 20 30 40 1030 2030
    1000000 6 { blockhash := [9], lastValidBlockHeight := 12345 }
    rfl rfl rfl (by decide) rfl rfl rfl rfl
  rw [show (accountExists demoSolanaEnv 2030).1 = false from rfl] at h
  simpa [defaultComputeUnitLimit, defaultComputeUnitPrice] using h

/-- C10: when the RPC lookup of the payee's associated token account
fails, `accountExists` returns `(false, nil)` rather than an error, so
`SolanaSigner.Sign` does not abort on the failed existence check and
builds the transaction with a prepended account-creation instruction,
exactly as if the account did not exist. -/
theorem accountExists_rpc_error_treated_as_absent
    (env : SolanaEnv) (params : SignParams)
    (recipient mint feePayer sourceATA destATA : PubKey) (amount decimals : Nat)
    (recent : LatestBlockhash) (rpcErr : String)
    (h1 : env.publicKeyFromBase58 params.toAddr = some recipient)
    (h2 : env.publicKeyFromBase58 params.tokenAddress = some mint)
    (h3 : env.publicKeyFromBase58 params.feePayer = some feePayer)
    (h4 : goParseUint64 params.value = some amount)
    (h5 : getTokenDecimals env mint = .ok decimals)
    (h6 : env.findAssociatedTokenAddress env.ownPublicKey mint = .ok sourceATA)
    (h7 : env.findAssociatedTokenAddress recipient mint = .ok destATA)
    (h8 : env.getLatestBlockhash = .ok recent)
    (h9 : env.getAccountInfo destATA = .error rpcErr)
    (h10 : ∀ t, env.signTx t = .ok ())
    (h11 : ∀ t, ∃ s, env.txToBase64 t = .ok s) :
    accountExists env destATA = (false, none) ∧
    SolanaSigner.buildTransaction env params =
      .ok ({ instructions :=
               Instruction.createAssociatedTokenAccount feePayer recipient mint ::
               [Instruction.setComputeUnitLimit defaultComputeUnitLimit,
                Instruction.setComputeUnitPrice defaultComputeUnitPrice,
                Instruction.transferChecked amount decimals sourceATA mint destATA
                  env.ownPublicKey],
             recentBlockhash := recent.blockhash, feePayer := feePayer }, recent) ∧
    ∃ r, SolanaSigner.Sign env params = .ok r := by
  have hex : accountExists env destATA = (false, none) := by
    unfold accountExists
    rw [h9]
  have hb := buildTransaction_ok_spec env params recipient mint feePayer sourceATA destATA
    amount decimals recent h1 h2 h3 h4 h5 h6 h7 h8
  rw [hex] at hb
  simp only [Bool.false_eq_true, if_false, List.cons_append, List.nil_append] at hb
  obtain ⟨s, hs⟩ := h11
    { instructions :=
        Instruction.createAssociatedTokenAccount feePayer recipient mint ::
        [Instruction.setComputeUnitLimit defaultComputeUnitLimit,
         Instruction.setComputeUnitPrice defaultComputeUnitPrice,
         Instruction.transferChecked amount decimals sourceATA mint destATA env.ownPublicKey],
      recentBlockhash := recent.blockhash, feePayer := feePayer }
  refine ⟨hex, hb, ?_⟩
  refine ⟨⟨s,
    ⟨params.fromAddr, params.toAddr, params.value, "0",
      toString recent.lastValidBlockHeight, env.b64encode recent.blockhash⟩,
    env.hashString recent.blockhash⟩, ?_⟩
  unfold SolanaSigner.Sign
  rw [hb]
  simp [h10, hs, Except.mapError, bind, Except.bind]

/-- Witness for C10 at the concrete environment, whose destination-ATA
RPC lookup fails: the flow still signs. -/
theorem accountExists_rpc_error_witness :
    accountExists demoSolanaEnv 2030 = (false, none) ∧
    ∃ r, SolanaSigner.Sign demoSolanaEnv demoSolanaParams = .ok r :=
  have h := accountExists_rpc_error_treated_as_absent demoSolanaEnv demoSolanaParams
    20 30 40 1030 2030 1000000 6 { blockhash := [9], lastValidBlockHeight := 12345 }
    "rpc down" rfl rfl rfl (by decide) rfl rfl rfl rfl rfl (fun _ => rfl) (fun _ => ⟨"BASE64TX", rfl⟩)
  ⟨h.1, h.2.2⟩

/-- Inversion of an `Except` bind through `mapError`, the shape produced
by the signing do-blocks. -/
theorem bindME_ok {α β : Type} {x : Except String α} {f : String → String}
    {g : α → Except String β} {r : β}
    (h : ((x.mapError f) >>= g) = .ok r) : ∃ a, x = .ok a ∧ g a = .ok r := by
  cases x with
  | error e => simp [Except.mapError, bind, Except.bind] at h
  | ok a => exact ⟨a, rfl, by simpa [Except.mapError, bind, Except.bind] using h⟩

/-- A successful `signWithValue` run returns the hex encoding of the
recovery-adjusted raw ECDSA signature. -/
theorem signWithValue_ok_sig (env : EVMEnv) (params : SignParams) (nonce : Bytes)
    (value : Int) (r : SignResult)
    (h : signWithValue env params nonce value = .ok r) :
    ∃ hash sig, env.cryptoSign hash = .ok sig ∧
      r.signature = "0x" ++ bytes2hex (adjustV sig) := by
  unfold signWithValue at h
  obtain ⟨ds, hds, h⟩ := bindME_ok h
  obtain ⟨ms, hms, h⟩ := bindME_ok h
  obtain ⟨sig, hsig, h⟩ := bindME_ok h
  refine ⟨_, sig, hsig, ?_⟩
  have := (Except.ok.inj h).symm
  rw [this]

/-- Hex encoding yields two characters per byte. -/
theorem bytes2hexList_length (b : Bytes) : (bytes2hexList b).length = 2 * b.length := by
  induction b with
  | nil => rfl
  | cons x t ih => simp [bytes2hexList, ih]; omega

/-- `Nat.digitChar` of a value below 16 is a decimal digit or `a`-`f`. -/
theorem hexChar_of_lt16 :
    ∀ n < 16, (Nat.digitChar n).isDigit = true ∨
      ('a' ≤ Nat.digitChar n ∧ Nat.digitChar n ≤ 'f') := by
  decide

/-- Hex encoding of genuine bytes produces only hexadecimal characters. -/
theorem bytes2hexList_hexChars (b : Bytes) (hb : ∀ x ∈ b, x < 256) :
    ∀ c ∈ bytes2hexList b, c.isDigit = true ∨ ('a' ≤ c ∧ c ≤ 'f') := by
  induction b with
  | nil => simp [bytes2hexList]
  | cons x t ih =>
    intro c hc
    have hx : x < 256 := hb x (by simp)
    simp [bytes2hexList] at hc
    rcases hc with h | h | h
    · subst h
      exact hexChar_of_lt16 _ (Nat.div_lt_of_lt_mul (by omega))
    · subst h
      exact hexChar_of_lt16 _ (Nat.mod_lt _ (by norm_num))
    · exact ih (fun y hy => hb y (by simp [hy])) c h

/-- The recovery-byte adjustment preserves the length. -/
theorem adjustV_length (s : Bytes) : (adjustV s).length = s.length := by
  unfold adjustV
  split <;> simp

/-- For a 65-byte raw signature whose recovery byte is 0 or 1, the
adjustment yields a 65-byte value of genuine bytes ending in 27 or 28. -/
theorem adjustV_spec (s : Bytes) (h65 : s.length = 65) (hv : s.getD 64 0 < 2)
    (hmem : ∀ x ∈ s, x < 256) :
    (adjustV s).length = 65 ∧
    ((adjustV s).getLast? = some 27 ∨ (adjustV s).getLast? = some 28) ∧
    (∀ x ∈ adjustV s, x < 256) := by
  have hlt27 : s.getD 64 0 < 27 := by omega
  have hset : adjustV s = s.set 64 (s.getD 64 0 + 27) := by
    unfold adjustV
    rw [if_pos hlt27]
  refine ⟨by rw [adjustV_length, h65], ?_, ?_⟩
  · rw [hset]
    have hlen : (s.set 64 (s.getD 64 0 + 27)).length = 65 := by simp [h65]
    have h64 : (64 : Nat) < (s.set 64 (s.getD 64 0 + 27)).length := by omega
    rw [List.getLast?_eq_getElem?, hlen]
    rw [show (65 : Nat) - 1 = 64 from rfl]
    rw [List.getElem?_eq_getElem h64, List.getElem_set_self]
    have hcases : s.getD 64 0 = 0 ∨ s.getD 64 0 = 1 := by omega
    rcases hcases with h | h <;> rw [h]
    · exact Or.inl rfl
    · exact Or.inr rfl
  · rw [hset]
    intro x hx
    rcases List.mem_or_eq_of_mem_set hx with h | h
    · exact hmem x h
    · omega

/-- A successful `EVMSigner.Sign` run factors through `signWithValue`. -/
theorem evmSign_ok_inv (env : EVMEnv) (params : SignParams) (r : SignResult)
    (h : EVMSigner.Sign env params = .ok r) :
    ∃ nonce value, signWithValue env params nonce value = .ok r := by
  unfold EVMSigner.Sign at h
  obtain ⟨nb, hnb, h⟩ := bindME_ok h
  cases hv : goBigIntSetString params.value with
  | none => rw [hv] at h; simp at h
  | some v => rw [hv] at h; exact ⟨_, v, h⟩

/-- A successful `SignTransferAuthorization` run factors through
`signWithValue`. -/
theorem signTransfer_ok_inv (env : EVMEnv) (params : SignParams) (r : SignResult)
    (h : SignTransferAuthorization env params = .ok r) :
    ∃ nonce value, signWithValue env params nonce value = .ok r := by
  unfold SignTransferAuthorization at h
  obtain ⟨nb, hnb, h⟩ := bindME_ok h
  exact ⟨_, _, h⟩

/-- C7: every successful EVM signing run (through either
`EVMSigner.Sign` or `SignTransferAuthorization`, given that the raw
ECDSA primitive returns 65 bytes with recovery byte 0 or 1) returns a
signature of the form 0x followed by exactly 130 hexadecimal characters
(65 bytes), whose final byte equals 27 or 28. -/
theorem evmSign_signature_format (env : EVMEnv) (params : SignParams) (r : SignResult)
    (hcontract : ∀ h s, env.cryptoSign h = .ok s →
      s.length = 65 ∧ (∀ x ∈ s, x < 256) ∧ s.getD 64 0 < 2)
    (hr : EVMSigner.Sign env params = .ok r ∨ SignTransferAuthorization env params = .ok r) :
    ∃ sig : Bytes,
      r.signature = "0x" ++ bytes2hex sig ∧
      sig.length = 65 ∧
      (bytes2hex sig).length = 130 ∧
      (∀ c ∈ (bytes2hex sig).toList, c.isDigit = true ∨ ('a' ≤ c ∧ c ≤ 'f')) ∧
      (sig.getLast? = some 27 ∨ sig.getLast? = some 28) ∧
      r.signature.length = 132 := by
  have hsv : ∃ nonce value, signWithValue env params nonce value = .ok r := by
    rcases hr with h | h
    · exact evmSign_ok_inv env params r h
    · exact signTransfer_ok_inv env params r h
  obtain ⟨nonce, value, hsv⟩ := hsv
  obtain ⟨hash, sig0, hsig, hrsig⟩ := signWithValue_ok_sig env params nonce value r hsv
  obtain ⟨hlen, hmem, hv⟩ := hcontract hash sig0 hsig
  obtain ⟨alen, alast, amem⟩ := adjustV_spec sig0 hlen hv hmem
  refine ⟨adjustV sig0, hrsig, alen, ?_, ?_, alast, ?_⟩
  · show (bytes2hexList (adjustV sig0)).length = 130
    rw [bytes2hexList_length, alen]
  · intro c hc
    exact bytes2hexList_hexChars _ amem c hc
  · rw [hrsig, String.length_append]
    have h130 : (bytes2hex (adjustV sig0)).length = 130 := by
      show (bytes2hexList (adjustV sig0)).length = 130
      rw [bytes2hexList_length, alen]
    rw [h130]
    rfl

/-- Parameters with a well-formed amount for the C7 witness. -/
def c7Params : SignParams := { value := "1000" }

/-- The signing result that `c5Env` produces on `c7Params`. -/
def c7Result : SignResult :=
  { signature := "0x" ++ bytes2hex (List.replicate 64 5 ++ [28])
    authorization :=
      { fromAddr := "", toAddr := "", value := "1000", validAfter := "0",
        validBefore := "1700000300", nonce := "0x" ++ bytes2hex (List.replicate 32 0) }
    nonce := "0x" ++ bytes2hex (List.replicate 32 0) }

/-- Witness for C7 at the concrete environment and parameters. -/
theorem evmSign_signature_format_witness :
    ∃ sig : Bytes,
      c7Result.signature = "0x" ++ bytes2hex sig ∧ sig.length = 65 ∧
      (bytes2hex sig).length = 130 ∧
      (∀ c ∈ (bytes2hex sig).toList, c.isDigit = true ∨ ('a' ≤ c ∧ c ≤ 'f')) ∧
      (sig.getLast? = some 27 ∨ sig.getLast? = some 28) ∧
      c7Result.signature.length = 132 :=
  evmSign_signature_format c5Env c7Params c7Result
    (fun h s hs => by
      have hse : s = List.replicate 64 5 ++ [1] := (Except.ok.inj hs).symm
      subst hse
      exact ⟨by decide, by decide, by decide⟩)
    (Or.inl rfl)

/-- C1: whenever the selected payment requirement has a numeric amount
exceeding the caller-supplied maximum-amount cap (the cap in human units
converted against the known token decimals), the orchestrated flow fails
during the selection step with the cap-exceeded error, and the signer is
invoked zero times. -/
theorem maxAmount_cap_blocks_signing
    (env : FlowEnv) (res : ParseResult) (opt : PaymentRequirement) (isSol : Bool)
    (cid : Int) (ti : TokenInfo) (maxRaw : String)
    (h0 : env.reqError = none)
    (h1 : env.status = 402)
    (h2 : ParsePaymentRequired env.codec env.paymentRequiredHeader env.body = .ok res)
    (h3 : selectPaymentOption (FindSolanaOption res.paymentRequired)
            (FindEVMOption res.paymentRequired) env.hasSolanaKeypair = .ok (opt, isSol))
    (h4 : (if isSol then Except.ok 0 else ExtractChainID opt.network : Except String Int)
            = .ok cid)
    (h5 : env.maxAmount ≠ "")
    (h6 : env.getTokenInfo opt.network opt.asset = some ti)
    (h7 : ParseHumanAmount env.maxAmount ti.decimals = .ok maxRaw)
    (h8 : CompareAmounts opt.GetAmount maxRaw > 0) :
    runTestFlow env =
      (.error ("payment amount " ++ FormatAmount opt.GetAmount ti.decimals ti.symbol ++
        " exceeds maximum " ++ env.maxAmount ++ " " ++ ti.symbol), 0) := by
  unfold runTestFlow
  rw [h0, h1]
  simp [h2, h3, h4, h5, h6, h7, h8]

/-- The concrete payment option of the C1 witness: amount 1000000. -/
def c1Option : PaymentRequirement :=
  { scheme := "exact", network := "eip155:84532", amount := "1000000",
    asset := "0xabc", payTo := "0xdef" }

/-- The concrete 402 payload of the C1 witness. -/
def c1PaymentRequired : PaymentRequired := { x402Version := 2, accepts := [c1Option] }

/-- Codec for the C1 witness: only `"GOOD"` decodes, to `c1PaymentRequired`. -/
def c1Codec : CodecEnv :=
  { b64decode := fun s => if s = "GOOD" then some [1] else none
    b64encode := fun _ => "ENC"
    jsonDecodePaymentRequired := fun b => if b = [1] then some c1PaymentRequired else none
    jsonDecodePaymentResponse := fun _ => none
    jsonEncodePayloadV2 := fun _ => []
    jsonEncodePayloadV1 := fun _ => [] }

/-- The C1 witness flow environment: a 402 response offering amount
1000000 of a 6-decimal token, a cap of 0.5 (500000 raw units), and a spy
signer that errors if ever invoked. -/
def c1Env : FlowEnv :=
  { codec := c1Codec
    reqError := none
    status := 402
    paymentRequiredHeader := "GOOD"
    body := []
    hasSolanaKeypair := false
    maxAmount := "0.5"
    dryRun := false
    skipPaymentConfirmation := true
    isTTY := false
    promptConfirm := true
    getTokenInfo := fun n a =>
      if n = "eip155:84532" ∧ a = "0xabc" then some { symbol := "USDC", decimals := 6 }
      else none
    loadWallet := fun _ => .ok "0xme"
    signer := fun _ => .error "spy signer: must never be invoked" }

/-- Witness for C1: cap 500000 raw units against amount 1000000 fails at
selection and the spy signer records zero invocations. -/
theorem maxAmount_cap_blocks_signing_witness :
    runTestFlow c1Env =
      (.error "payment amount 1.00 USDC exceeds maximum 0.5 USDC", 0) :=
  maxAmount_cap_blocks_signing c1Env
    { paymentRequired := c1PaymentRequired, protocolVersion := 2,
      rawHeader := "GOOD", rawBody := [] }
    c1Option false 84532 { symbol := "USDC", decimals := 6 } "500000"
    rfl rfl rfl rfl rfl (by decide) rfl rfl (by decide)

end Theorems
